import Mathlib

/-!
Verification of the invoice computation, validation and persistence engine.

The development is a shallow embedding of the TypeScript source: record
types mirror the interfaces in `src/types.ts` (plus the `StoredInvoice`
shape used by the archive handlers), and the handlers of the invoice
component are translated into pure Lean functions.  JavaScript numbers are
modelled as rationals (`ℚ`); the values the engine manipulates stay
full-precision internally, so rational arithmetic captures the intended
semantics of the formulas.  `Number(string)` parsing is modelled by an
`Option ℚ` argument (`none` standing for `NaN`), and `new Date(s).getTime()`
is modelled by an abstract parse function `String → Option Int` (`none`
standing for an invalid date).  React `setState` updates are modelled as
pure state-transformation functions.
-/

namespace Invoice

/-- Mirrors the `ClientDetails` interface of `src/types.ts`.  The optional
fields (`addressLine2`, `gstin`) are modelled as plain strings: every
constructor in the source fills them with `''` defaults. -/
structure ClientDetails where
  companyName : String
  contactName : String
  email : String
  phone : String
  addressLine1 : String
  addressLine2 : String
  city : String
  state : String
  postalCode : String
  country : String
  gstin : String
  deriving DecidableEq, Repr

/-- Mirrors the `LineItem` interface of `src/types.ts`; the numeric fields
`quantity`, `unitPrice` and `discountRate` are rationals. -/
structure LineItem where
  id : String
  serviceId : String
  description : String
  quantity : ℚ
  unitPrice : ℚ
  discountRate : ℚ
  notes : String
  deriving DecidableEq, Repr

/-- Mirrors the `InvoiceMeta` interface of `src/types.ts`. -/
structure InvoiceMeta where
  invoiceNumber : String
  issueDate : String
  dueDate : String
  projectName : String
  purchaseOrder : String
  reference : String
  deriving DecidableEq, Repr

/-- The fixed currency enumeration `'INR' | 'USD' | 'EUR'`. -/
inductive Currency where
  | INR
  | USD
  | EUR
  deriving DecidableEq, Repr

/-- Mirrors the `InvoiceFormState` interface of `src/types.ts`: the single
mutable working entity of the engine. -/
structure InvoiceFormState where
  clientSelectionId : String
  client : ClientDetails
  currency : Currency
  taxRate : ℚ
  lineItems : List LineItem
  meta : InvoiceMeta
  terms : String
  additionalNote : String
  deriving DecidableEq, Repr

/-- Mirrors the `StoredInvoice` archive-entry shape used by the handlers:
generated id, denormalized invoice number, save timestamp, and an embedded
deep copy of an `InvoiceFormState`. -/
structure StoredInvoice where
  id : String
  invoiceNumber : String
  savedAt : String
  formState : InvoiceFormState
  deriving DecidableEq, Repr

/-- The monetary breakdown produced by the totals computation. -/
structure Totals where
  subtotal : ℚ
  discountTotal : ℚ
  taxableAmount : ℚ
  taxAmount : ℚ
  total : ℚ
  deriving DecidableEq, Repr

/-- The `totals` memo of the component: reduces over the line items exactly
as the source does (`reduce` with accumulator `0`), takes
`Math.max(subtotal - discountTotal, 0)`, applies the tax rate and sums. -/
def totals (lineItems : List LineItem) (taxRate : ℚ) : Totals :=
  let subtotal := lineItems.foldl (fun sum item => sum + item.quantity * item.unitPrice) 0
  let discountTotal :=
    lineItems.foldl (fun sum item => sum + item.quantity * item.unitPrice * item.discountRate / 100) 0
  let taxableAmount := max (subtotal - discountTotal) 0
  let taxAmount := taxableAmount * taxRate / 100
  let total := taxableAmount + taxAmount
  { subtotal := subtotal, discountTotal := discountTotal, taxableAmount := taxableAmount,
    taxAmount := taxAmount, total := total }

/-- Model of `String.prototype.trim()`: drops leading and trailing
whitespace.  Defined by structural recursion over the character list so
that it evaluates by kernel reduction. -/
def jsTrim (s : String) : String :=
  ⟨((s.data.dropWhile Char.isWhitespace).reverse.dropWhile Char.isWhitespace).reverse⟩

/-- The `validateInvoice` function: collects completeness issues in source
order; `parseDate` models `new Date(s).getTime()` (`none` = `NaN`).  String
truthiness (`!s.trim()`, `s && t`) is translated literally: a trimmed string
is falsy iff it is empty, and the raw-string guard of the date-order rule
tests the un-trimmed strings against `""`. -/
def validateInvoice (parseDate : String → Option Int) (s : InvoiceFormState) : List String :=
  (if jsTrim s.meta.invoiceNumber = "" then ["Invoice number is required."] else []) ++
  (if jsTrim s.meta.issueDate = "" then ["Issue date is required."] else []) ++
  (if jsTrim s.meta.dueDate = "" then ["Due date is required."] else []) ++
  (if s.meta.issueDate ≠ "" ∧ s.meta.dueDate ≠ "" then
    match parseDate s.meta.issueDate, parseDate s.meta.dueDate with
    | some issue, some due =>
      if due < issue then ["Due date must be on or after issue date."] else []
    | _, _ => []
  else []) ++
  (if jsTrim s.client.companyName = "" then ["Bill to company name is required."] else []) ++
  (if jsTrim s.client.addressLine1 = "" then ["Bill to address line 1 is required."] else []) ++
  (if jsTrim s.client.city = "" then ["Bill to city is required."] else []) ++
  (if jsTrim s.client.state = "" then ["Bill to state is required."] else []) ++
  (if jsTrim s.client.postalCode = "" then ["Bill to postal code is required."] else []) ++
  (if jsTrim s.client.country = "" then ["Bill to country is required."] else []) ++
  (if s.lineItems = [] then ["At least one line item is required."] else []) ++
  (if s.lineItems.any (fun item =>
      jsTrim item.description == "" || item.quantity ≤ 0 || item.unitPrice < 0 || item.discountRate < 0)
  then ["Line items must include a description, quantity > 0, non-negative unit price, and non-negative discount."]
  else [])

/-- A JSON value tree, the image of `JSON.stringify` / preimage of
`JSON.parse` relevant here: strings, numbers, arrays and objects (an object
is an ordered key/value list). -/
inductive Json where
  | str : String → Json
  | num : ℚ → Json
  | arr : List Json → Json
  | obj : List (String × Json) → Json

/-- Field lookup on a JSON object (`none` on non-objects or missing keys). -/
def Json.getField (j : Json) (k : String) : Option Json :=
  match j with
  | .obj fields => fields.lookup k
  | _ => none

/-- String extraction from a JSON value. -/
def Json.asStr : Json → Option String
  | .str s => some s
  | _ => none

/-- Number extraction from a JSON value. -/
def Json.asNum : Json → Option ℚ
  | .num q => some q
  | _ => none

/-- Serialization of a `Currency` to its JSON string. -/
def Currency.toJson : Currency → Json
  | .INR => .str "INR"
  | .USD => .str "USD"
  | .EUR => .str "EUR"

/-- Deserialization of a `Currency` from its JSON string. -/
def Currency.fromJson (j : Json) : Option Currency :=
  match j with
  | .str "INR" => some .INR
  | .str "USD" => some .USD
  | .str "EUR" => some .EUR
  | _ => none

/-- Serialization of `ClientDetails` to a JSON object. -/
def ClientDetails.toJson (c : ClientDetails) : Json :=
  .obj [("companyName", .str c.companyName), ("contactName", .str c.contactName),
    ("email", .str c.email), ("phone", .str c.phone),
    ("addressLine1", .str c.addressLine1), ("addressLine2", .str c.addressLine2),
    ("city", .str c.city), ("state", .str c.state),
    ("postalCode", .str c.postalCode), ("country", .str c.country),
    ("gstin", .str c.gstin)]

/-- String-valued field lookup. -/
def Json.getStr (j : Json) (k : String) : Option String :=
  (j.getField k).bind Json.asStr

/-- Number-valued field lookup. -/
def Json.getNum (j : Json) (k : String) : Option ℚ :=
  (j.getField k).bind Json.asNum

/-- Deserialization of `ClientDetails` from a JSON object. -/
def ClientDetails.fromJson (j : Json) : Option ClientDetails :=
  match j.getStr "companyName", j.getStr "contactName", j.getStr "email",
    j.getStr "phone", j.getStr "addressLine1", j.getStr "addressLine2",
    j.getStr "city", j.getStr "state", j.getStr "postalCode",
    j.getStr "country", j.getStr "gstin" with
  | some companyName, some contactName, some email, some phone, some addressLine1,
    some addressLine2, some city, some state, some postalCode, some country,
    some gstin =>
    some ⟨companyName, contactName, email, phone, addressLine1, addressLine2,
      city, state, postalCode, country, gstin⟩
  | _, _, _, _, _, _, _, _, _, _, _ => none

/-- Serialization of a `LineItem` to a JSON object. -/
def LineItem.toJson (it : LineItem) : Json :=
  .obj [("id", .str it.id), ("serviceId", .str it.serviceId),
    ("description", .str it.description), ("quantity", .num it.quantity),
    ("unitPrice", .num it.unitPrice), ("discountRate", .num it.discountRate),
    ("notes", .str it.notes)]

/-- Deserialization of a `LineItem` from a JSON object. -/
def LineItem.fromJson (j : Json) : Option LineItem :=
  match j.getStr "id", j.getStr "serviceId", j.getStr "description",
    j.getNum "quantity", j.getNum "unitPrice", j.getNum "discountRate",
    j.getStr "notes" with
  | some id, some serviceId, some description, some quantity, some unitPrice,
    some discountRate, some notes =>
    some ⟨id, serviceId, description, quantity, unitPrice, discountRate, notes⟩
  | _, _, _, _, _, _, _ => none

/-- Serialization of `InvoiceMeta` to a JSON object. -/
def InvoiceMeta.toJson (m : InvoiceMeta) : Json :=
  .obj [("invoiceNumber", .str m.invoiceNumber), ("issueDate", .str m.issueDate),
    ("dueDate", .str m.dueDate), ("projectName", .str m.projectName),
    ("purchaseOrder", .str m.purchaseOrder), ("reference", .str m.reference)]

/-- Deserialization of `InvoiceMeta` from a JSON object. -/
def InvoiceMeta.fromJson (j : Json) : Option InvoiceMeta :=
  match j.getStr "invoiceNumber", j.getStr "issueDate", j.getStr "dueDate",
    j.getStr "projectName", j.getStr "purchaseOrder", j.getStr "reference" with
  | some invoiceNumber, some issueDate, some dueDate, some projectName,
    some purchaseOrder, some reference =>
    some ⟨invoiceNumber, issueDate, dueDate, projectName, purchaseOrder, reference⟩
  | _, _, _, _, _, _ => none

/-- Serialization of an `InvoiceFormState` to a JSON object, the model of
`JSON.stringify(state)`. -/
def InvoiceFormState.toJson (s : InvoiceFormState) : Json :=
  .obj [("clientSelectionId", .str s.clientSelectionId),
    ("client", s.client.toJson),
    ("currency", s.currency.toJson),
    ("taxRate", .num s.taxRate),
    ("lineItems", .arr (s.lineItems.map LineItem.toJson)),
    ("meta", s.meta.toJson),
    ("terms", .str s.terms),
    ("additionalNote", .str s.additionalNote)]

/-- Array extraction from a JSON value. -/
def Json.asArr : Json → Option (List Json)
  | .arr items => some items
  | _ => none

/-- Deserialization of a list of line items, element by element (fails when
any element fails). -/
def decodeLineItems : List Json → Option (List LineItem)
  | [] => some []
  | j :: rest =>
    match LineItem.fromJson j, decodeLineItems rest with
    | some it, some its => some (it :: its)
    | _, _ => none

/-- Deserialization of an `InvoiceFormState` from a JSON object, the model
of `JSON.parse(serialized)`. -/
def InvoiceFormState.fromJson (j : Json) : Option InvoiceFormState :=
  match j.getStr "clientSelectionId",
    (j.getField "client").bind ClientDetails.fromJson,
    (j.getField "currency").bind Currency.fromJson,
    j.getNum "taxRate",
    ((j.getField "lineItems").bind Json.asArr).bind decodeLineItems,
    (j.getField "meta").bind InvoiceMeta.fromJson,
    j.getStr "terms", j.getStr "additionalNote" with
  | some clientSelectionId, some client, some currency, some taxRate,
    some lineItems, some meta, some terms, some additionalNote =>
    some ⟨clientSelectionId, client, currency, taxRate, lineItems, meta, terms,
      additionalNote⟩
  | _, _, _, _, _, _, _, _ => none

/-- The `cloneFormState` helper: `JSON.parse(JSON.stringify(state))`,
modelled as serialization to a JSON tree followed by deserialization.  The
source asserts the parse result back to `InvoiceFormState`; the embedding
returns the original state on a (never occurring) parse failure. -/
def cloneFormState (state : InvoiceFormState) : InvoiceFormState :=
  (InvoiceFormState.fromJson state.toJson).getD state

/-- Model of the JavaScript expression `Number(text) || 0` used by the
line-item numeric inputs: `parsed` is `Number(text)` with `none` for `NaN`.
Both `NaN` and `0` are falsy, so the expression yields `0` for them and the
parsed value otherwise; on rationals this is exactly `getD`-style defaulting
(`some 0` already yields `0`). -/
def jsNumberOrZero (parsed : Option ℚ) : ℚ :=
  match parsed with
  | none => 0
  | some v => v

/-- The `handleTaxRateChange` handler: `Number(value)` is `parsed`
(`none` = `NaN`); a `NaN` keeps the previous tax rate, otherwise the value
is clamped with `Math.max(nextValue, 0)`. -/
def handleTaxRateChange (parsed : Option ℚ) (prev : InvoiceFormState) : InvoiceFormState :=
  { prev with taxRate :=
      match parsed with
      | none => prev.taxRate
      | some nextValue => max nextValue 0 }

/-- The generic `handleLineItemFieldChange` handler: maps over the line
items and replaces the field (here an arbitrary item update `upd`) on the
item whose id matches. -/
def handleLineItemFieldChange (id : String) (upd : LineItem → LineItem)
    (prev : InvoiceFormState) : InvoiceFormState :=
  { prev with lineItems := prev.lineItems.map (fun item => if item.id = id then upd item else item) }

/-- The unit-price input's `onChange`:
`handleLineItemFieldChange(item.id, 'unitPrice', Number(value) || 0)`. -/
def handleUnitPriceInput (id : String) (parsed : Option ℚ) (prev : InvoiceFormState) :
    InvoiceFormState :=
  handleLineItemFieldChange id (fun item => { item with unitPrice := jsNumberOrZero parsed }) prev

/-- The quantity input's `onChange`:
`handleLineItemFieldChange(item.id, 'quantity', Number(value) || 0)`. -/
def handleQuantityInput (id : String) (parsed : Option ℚ) (prev : InvoiceFormState) :
    InvoiceFormState :=
  handleLineItemFieldChange id (fun item => { item with quantity := jsNumberOrZero parsed }) prev

/-- The discount-rate input's `onChange`:
`handleLineItemFieldChange(item.id, 'discountRate', Number(value) || 0)`. -/
def handleDiscountRateInput (id : String) (parsed : Option ℚ) (prev : InvoiceFormState) :
    InvoiceFormState :=
  handleLineItemFieldChange id (fun item => { item with discountRate := jsNumberOrZero parsed }) prev

/-- The archive-relevant component state: the `savedInvoices` list and the
`selectedSavedInvoiceId` string (`""` = nothing selected, the falsy sentinel
the source uses). -/
structure ArchiveState where
  savedInvoices : List StoredInvoice
  selectedSavedInvoiceId : String
  deriving DecidableEq, Repr

/-- The `handleSaveInvoiceCopy` handler.  `proceed` is the answer of the
`window.confirm` collaborator, consulted only when validation issues exist;
`newId` is the `generateId()` result and `savedAt` the current timestamp.
On commit a new `StoredInvoice` is prepended and selected. -/
def handleSaveInvoiceCopy (parseDate : String → Option Int) (proceed : Bool)
    (newId savedAt : String) (formState : InvoiceFormState) (st : ArchiveState) :
    ArchiveState :=
  let issues := validateInvoice parseDate formState
  if issues ≠ [] ∧ proceed = false then st
  else
    { savedInvoices :=
        ⟨newId, formState.meta.invoiceNumber, savedAt, cloneFormState formState⟩ ::
          st.savedInvoices,
      selectedSavedInvoiceId := newId }

/-- The `handleUpdateSavedInvoiceCopy` handler: early return when nothing is
selected (empty id is falsy), otherwise after the validation/confirm gate it
maps over the archive replacing invoice number, timestamp and cloned state
on entries whose id equals the selection. -/
def handleUpdateSavedInvoiceCopy (parseDate : String → Option Int) (proceed : Bool)
    (savedAt : String) (formState : InvoiceFormState) (st : ArchiveState) : ArchiveState :=
  if st.selectedSavedInvoiceId = "" then st
  else
    let issues := validateInvoice parseDate formState
    if issues ≠ [] ∧ proceed = false then st
    else
      { st with savedInvoices := st.savedInvoices.map (fun inv =>
          if inv.id = st.selectedSavedInvoiceId then
            { inv with
              invoiceNumber := formState.meta.invoiceNumber
              savedAt := savedAt
              formState := cloneFormState formState }
          else inv) }

/-- The `handleDuplicateSavedInvoiceCopy` handler: unconditionally builds a
new `StoredInvoice` from the working state, prepends it and selects it. -/
def handleDuplicateSavedInvoiceCopy (newId savedAt : String) (formState : InvoiceFormState)
    (st : ArchiveState) : ArchiveState :=
  { savedInvoices :=
      ⟨newId, formState.meta.invoiceNumber, savedAt, cloneFormState formState⟩ ::
        st.savedInvoices,
    selectedSavedInvoiceId := newId }

/-- The `handleLoadSavedInvoice` handler: finds the entry with the given id;
when absent it returns early, otherwise it deep-clones the entry's state
into the working state and selects the entry.  The result pairs the working
state with the archive state. -/
def handleLoadSavedInvoice (id : String) (formState : InvoiceFormState) (st : ArchiveState) :
    InvoiceFormState × ArchiveState :=
  match st.savedInvoices.find? (fun inv => inv.id == id) with
  | none => (formState, st)
  | some m => (cloneFormState m.formState, { st with selectedSavedInvoiceId := m.id })

/-- The `handleRemoveLineItem` handler: filters out items with the given id,
but only when more than one line item is present; a single-item list is
returned unchanged. -/
def handleRemoveLineItem (id : String) (prev : InvoiceFormState) : InvoiceFormState :=
  { prev with lineItems :=
      if prev.lineItems.length > 1 then prev.lineItems.filter (fun item => item.id != id)
      else prev.lineItems }

/-! Helper lemmas shared by the claim theorems. -/

theorem jsTrim_empty : jsTrim "" = "" := by decide

theorem foldl_add_eq (f : LineItem → ℚ) (l : List LineItem) (a : ℚ) :
    l.foldl (fun sum it => sum + f it) a = a + (l.map f).sum := by
  induction l generalizing a with
  | nil => simp
  | cons x xs ih => simp [ih, add_assoc]

theorem clientDetails_roundtrip (c : ClientDetails) :
    ClientDetails.fromJson c.toJson = some c := rfl

theorem currency_roundtrip (c : Currency) :
    Currency.fromJson c.toJson = some c := by
  cases c <;> rfl

theorem lineItem_roundtrip (it : LineItem) :
    LineItem.fromJson it.toJson = some it := rfl

theorem invoiceMeta_roundtrip (m : InvoiceMeta) :
    InvoiceMeta.fromJson m.toJson = some m := rfl

theorem decodeLineItems_roundtrip (l : List LineItem) :
    decodeLineItems (l.map LineItem.toJson) = some l := by
  induction l with
  | nil => rfl
  | cons x xs ih => simp [decodeLineItems, lineItem_roundtrip, ih]

theorem formState_roundtrip (s : InvoiceFormState) :
    InvoiceFormState.fromJson s.toJson = some s := by
  have hitems : ((s.toJson.getField "lineItems").bind Json.asArr).bind
      decodeLineItems = some s.lineItems := by
    have h1 : (s.toJson.getField "lineItems").bind Json.asArr
        = some (s.lineItems.map LineItem.toJson) := rfl
    rw [h1]
    exact decodeLineItems_roundtrip s.lineItems
  have hcur : (s.toJson.getField "currency").bind Currency.fromJson = some s.currency := by
    have h1 : s.toJson.getField "currency" = some s.currency.toJson := rfl
    rw [h1]
    exact currency_roundtrip s.currency
  simp only [InvoiceFormState.fromJson]
  rw [hitems, hcur]
  rfl

theorem cloneFormState_eq (s : InvoiceFormState) : cloneFormState s = s := by
  simp [cloneFormState, formState_roundtrip]

/-- C8: `cloneFormState` deserializes the serialized working state into a
structurally equal copy: the JSON round trip succeeds and returns a state
equal to the original.  The clone is rebuilt entirely from the serialized
tree, so — in the reference semantics of the source — it shares no mutable
structure with the original: in this value-semantics embedding, mutation
independence of the save-time snapshot and the load-time working state is
exactly this round-trip identity. -/
theorem cloneFormState_roundtrip_independent :
    ∀ s : InvoiceFormState,
      InvoiceFormState.fromJson s.toJson = some s ∧ cloneFormState s = s :=
  fun s => ⟨formState_roundtrip s, cloneFormState_eq s⟩

/-- C1: the totals computation satisfies the spec formulas — subtotal and
discount total are the sums of the per-item amounts and discounts, the
taxable amount is `max(subtotal - discountTotal, 0)` (hence non-negative),
`taxAmount = taxableAmount * taxRate / 100`, `total = taxableAmount +
taxAmount` — and on the example items `[{qty:2, price:1000, discount:10},
{qty:1, price:500, discount:0}]` with tax rate 18 it yields
`subtotal=2500, discountTotal=200, taxableAmount=2300, taxAmount=414,
total=2714`. -/
theorem totals_spec :
    (∀ (lineItems : List LineItem) (taxRate : ℚ),
      (totals lineItems taxRate).subtotal =
        (lineItems.map (fun it => it.quantity * it.unitPrice)).sum ∧
      (totals lineItems taxRate).discountTotal =
        (lineItems.map (fun it => it.quantity * it.unitPrice * it.discountRate / 100)).sum ∧
      (totals lineItems taxRate).taxableAmount =
        max ((totals lineItems taxRate).subtotal - (totals lineItems taxRate).discountTotal) 0 ∧
      0 ≤ (totals lineItems taxRate).taxableAmount ∧
      (totals lineItems taxRate).taxAmount =
        (totals lineItems taxRate).taxableAmount * taxRate / 100 ∧
      (totals lineItems taxRate).total =
        (totals lineItems taxRate).taxableAmount + (totals lineItems taxRate).taxAmount) ∧
    totals [⟨"li-1", "svc-1", "Item A", 2, 1000, 10, ""⟩,
      ⟨"li-2", "svc-2", "Item B", 1, 500, 0, ""⟩] 18 = ⟨2500, 200, 2300, 414, 2714⟩ := by
  constructor
  · intro lineItems taxRate
    refine ⟨?_, ?_, rfl, le_max_right _ _, rfl, rfl⟩
    · simp [totals, foldl_add_eq]
    · simp [totals, foldl_add_eq]
  · simp only [totals, List.foldl]
    norm_num

/-- C2: on any invoice state whose due date is empty and whose client
company name is blank after trimming, but which satisfies every other
validation rule, the validator returns exactly the due-date issue followed
by the company-name issue — for every date-parsing oracle, hence
identically on every run on the same input. -/
theorem validateInvoice_missing_due_and_company (parseDate : String → Option Int)
    (s : InvoiceFormState)
    (hnum : jsTrim s.meta.invoiceNumber ≠ "")
    (hissue : jsTrim s.meta.issueDate ≠ "")
    (hdue : s.meta.dueDate = "")
    (hcompany : jsTrim s.client.companyName = "")
    (haddr : jsTrim s.client.addressLine1 ≠ "")
    (hcity : jsTrim s.client.city ≠ "")
    (hstate : jsTrim s.client.state ≠ "")
    (hpostal : jsTrim s.client.postalCode ≠ "")
    (hcountry : jsTrim s.client.country ≠ "")
    (hitems : s.lineItems ≠ [])
    (hok : s.lineItems.any (fun item =>
      jsTrim item.description == "" || item.quantity ≤ 0 || item.unitPrice < 0 ||
        item.discountRate < 0) = false) :
    validateInvoice parseDate s =
      ["Due date is required.", "Bill to company name is required."] := by
  simp [validateInvoice, hnum, hissue, hdue, jsTrim_empty, hcompany, haddr, hcity, hstate,
    hpostal, hcountry, hitems, hok]

/-- Witness for C2 at a concrete invoice state. -/
theorem validateInvoice_missing_due_and_company_witness :
    validateInvoice (fun _ => none)
      { clientSelectionId := "client-1"
        client := ⟨"", "Asha", "asha@example.com", "99", "12 Main St", "", "Pune",
          "MH", "411001", "India", ""⟩
        currency := .INR
        taxRate := 18
        lineItems := [⟨"li-1", "svc-1", "Consulting", 2, 1000, 10, ""⟩]
        meta := ⟨"ADS-2024-0101-abc", "2024-01-01", "", "Project X", "", ""⟩
        terms := "Net 30"
        additionalNote := "" } =
      ["Due date is required.", "Bill to company name is required."] :=
  validateInvoice_missing_due_and_company (fun _ => none) _ (by decide) (by decide) rfl
    (by decide) (by decide) (by decide) (by decide) (by decide) (by decide) (by decide)
    (by decide)

/-! Concrete fixtures used by the closed witness and counterexample
theorems. -/

/-- A concrete complete client. -/
def sampleClient : ClientDetails :=
  ⟨"Acme Corp", "Asha", "asha@example.com", "99", "12 Main St", "", "Pune", "MH",
    "411001", "India", ""⟩

/-- A concrete working state with a single line item. -/
def sampleState : InvoiceFormState :=
  { clientSelectionId := "client-1"
    client := sampleClient
    currency := .INR
    taxRate := 18
    lineItems := [⟨"li-1", "svc-1", "Consulting", 2, 1000, 10, ""⟩]
    meta := ⟨"ADS-2024-0101-abc", "2024-01-01", "2024-01-15", "Project X", "", ""⟩
    terms := "Net 30"
    additionalNote := "" }

/-- A concrete archived entry embedding `sampleState`. -/
def sampleStored : StoredInvoice :=
  ⟨"inv-1", "ADS-OLD", "2024-01-01T00:00:00Z", sampleState⟩

/-- A concrete archive with one entry, which is selected. -/
def sampleArchive : ArchiveState := ⟨[sampleStored], "inv-1"⟩

/-- A concrete working state with two line items with distinct ids. -/
def twoItemState : InvoiceFormState :=
  { sampleState with
    lineItems := [⟨"li-1", "svc-1", "Consulting", 2, 1000, 10, ""⟩,
      ⟨"li-2", "svc-2", "Support", 1, 500, 0, ""⟩] }

/-- C5: whenever the save commits (no validation issues, or the user
confirms), `handleSaveInvoiceCopy` prepends a new `StoredInvoice` carrying
the generated id, the current timestamp, the invoice number copied from the
current meta, and a deep clone of the working state (equal to it), leaving
every prior entry in place behind it, and selects the new entry. -/
theorem handleSaveInvoiceCopy_spec (parseDate : String → Option Int) (proceed : Bool)
    (newId savedAt : String) (formState : InvoiceFormState) (st : ArchiveState)
    (hcommit : validateInvoice parseDate formState = [] ∨ proceed = true) :
    handleSaveInvoiceCopy parseDate proceed newId savedAt formState st =
      { savedInvoices :=
          ⟨newId, formState.meta.invoiceNumber, savedAt, formState⟩ :: st.savedInvoices,
        selectedSavedInvoiceId := newId } := by
  unfold handleSaveInvoiceCopy
  rw [cloneFormState_eq]
  rcases hcommit with h | h
  · simp [h]
  · simp [h]

/-- Witness for C5 at a concrete archive and working state. -/
theorem handleSaveInvoiceCopy_spec_witness :
    handleSaveInvoiceCopy (fun _ => none) true "new-id" "2024-02-01T00:00:00Z"
        sampleState sampleArchive =
      { savedInvoices :=
          ⟨"new-id", sampleState.meta.invoiceNumber, "2024-02-01T00:00:00Z", sampleState⟩ ::
            sampleArchive.savedInvoices,
        selectedSavedInvoiceId := "new-id" } :=
  handleSaveInvoiceCopy_spec (fun _ => none) true "new-id" "2024-02-01T00:00:00Z"
    sampleState sampleArchive (Or.inr rfl)

/-- C7: `handleDuplicateSavedInvoiceCopy` coincides with
`handleSaveInvoiceCopy` under a granted confirmation (the committing save
path) on every input, and its result is independent of which archive entry,
if any, is currently selected — it always creates, prepends and selects a
new entry. -/
theorem handleDuplicateSavedInvoiceCopy_eq_save :
    ∀ (parseDate : String → Option Int) (newId savedAt : String)
      (formState : InvoiceFormState) (entries : List StoredInvoice) (sel sel' : String),
      handleDuplicateSavedInvoiceCopy newId savedAt formState ⟨entries, sel⟩ =
        handleSaveInvoiceCopy parseDate true newId savedAt formState ⟨entries, sel⟩ ∧
      handleDuplicateSavedInvoiceCopy newId savedAt formState ⟨entries, sel⟩ =
        handleDuplicateSavedInvoiceCopy newId savedAt formState ⟨entries, sel'⟩ := by
  intro parseDate newId savedAt formState entries sel sel'
  constructor
  · simp [handleDuplicateSavedInvoiceCopy, handleSaveInvoiceCopy]
  · rfl

/-- C9: `handleLoadSavedInvoice` with an id absent from the archive leaves
the working state, the selection and the archive unchanged; with a present
id it deep-clones that entry's embedded state (equal to it) into the
working state and selects the entry, leaving the archive list itself
untouched. -/
theorem handleLoadSavedInvoice_spec (id : String) (fs : InvoiceFormState) (st : ArchiveState) :
    ((∀ e ∈ st.savedInvoices, e.id ≠ id) →
      handleLoadSavedInvoice id fs st = (fs, st)) ∧
    (∀ m, st.savedInvoices.find? (fun inv => inv.id == id) = some m →
      handleLoadSavedInvoice id fs st =
        (m.formState, { st with selectedSavedInvoiceId := m.id })) := by
  constructor
  · intro h
    have hnone : st.savedInvoices.find? (fun inv => inv.id == id) = none := by
      rw [List.find?_eq_none]
      intro x hx
      simpa using h x hx
    simp [handleLoadSavedInvoice, hnone]
  · intro m hm
    simp [handleLoadSavedInvoice, hm, cloneFormState_eq]

/-- Witness for C9: a missing id is a no-op, a present id loads the clone
and selects the entry. -/
theorem handleLoadSavedInvoice_spec_witness :
    handleLoadSavedInvoice "no-such-id" twoItemState sampleArchive =
      (twoItemState, sampleArchive) ∧
    handleLoadSavedInvoice "inv-1" twoItemState sampleArchive =
      (sampleStored.formState,
        { sampleArchive with selectedSavedInvoiceId := sampleStored.id }) :=
  ⟨(handleLoadSavedInvoice_spec "no-such-id" twoItemState sampleArchive).1 (by decide),
    (handleLoadSavedInvoice_spec "inv-1" twoItemState sampleArchive).2 sampleStored (by decide)⟩

theorem map_update_id (l : List StoredInvoice) (sel : String) (f : StoredInvoice → StoredInvoice)
    (h : ∀ e ∈ l, e.id ≠ sel) :
    l.map (fun inv => if inv.id = sel then f inv else inv) = l := by
  induction l with
  | nil => rfl
  | cons x xs ih =>
    have hx : x.id ≠ sel := h x (List.mem_cons_self x xs)
    have hxs : ∀ e ∈ xs, e.id ≠ sel := fun e he => h e (List.mem_cons_of_mem x he)
    simp [hx, ih hxs]

/-- C6: whenever the update commits (no validation issues, or the user
confirms), `handleUpdateSavedInvoiceCopy` is a no-op on the whole state
when no entry carries the selected id; when the selection is a real id,
the archive keeps its length and the selection is unchanged, and, position
by position, an entry whose id is not the selected one is untouched while
an entry with the selected id keeps its id and position and has exactly its
invoice number, timestamp and embedded state replaced (the state by a deep
clone of the working state, equal to it). -/
theorem handleUpdateSavedInvoiceCopy_spec (parseDate : String → Option Int) (proceed : Bool)
    (savedAt : String) (formState : InvoiceFormState) (st : ArchiveState)
    (hcommit : validateInvoice parseDate formState = [] ∨ proceed = true) :
    ((∀ e ∈ st.savedInvoices, e.id ≠ st.selectedSavedInvoiceId) →
      handleUpdateSavedInvoiceCopy parseDate proceed savedAt formState st = st) ∧
    (st.selectedSavedInvoiceId ≠ "" →
      (handleUpdateSavedInvoiceCopy parseDate proceed savedAt formState st).selectedSavedInvoiceId =
        st.selectedSavedInvoiceId ∧
      (handleUpdateSavedInvoiceCopy parseDate proceed savedAt formState st).savedInvoices.length =
        st.savedInvoices.length ∧
      ∀ i : ℕ,
        (handleUpdateSavedInvoiceCopy parseDate proceed savedAt formState st).savedInvoices[i]? =
          (st.savedInvoices[i]?).map (fun old =>
            if old.id = st.selectedSavedInvoiceId then
              { old with
                invoiceNumber := formState.meta.invoiceNumber
                savedAt := savedAt
                formState := formState }
            else old)) := by
  have hcond : ¬(validateInvoice parseDate formState ≠ [] ∧ proceed = false) := by
    rcases hcommit with h | h
    · exact fun hc => hc.1 h
    · intro hc
      simp [h] at hc
  by_cases hsel : st.selectedSavedInvoiceId = ""
  · constructor
    · intro _
      simp [handleUpdateSavedInvoiceCopy, hsel]
    · intro hne
      exact absurd hsel hne
  · constructor
    · intro h
      simp only [handleUpdateSavedInvoiceCopy, if_neg hsel, if_neg hcond]
      rw [map_update_id _ _ _ h]
    · intro _
      refine ⟨?_, ?_, ?_⟩
      · simp [handleUpdateSavedInvoiceCopy, hsel, hcond]
      · simp [handleUpdateSavedInvoiceCopy, hsel, hcond]
      · intro i
        simp [handleUpdateSavedInvoiceCopy, hsel, hcond, List.getElem?_map,
          cloneFormState_eq]

/-- Witness for C6: on the concrete one-entry archive with its entry
selected, the selection survives and the entry at index 0 is replaced in
place. -/
theorem handleUpdateSavedInvoiceCopy_spec_witness :
    (handleUpdateSavedInvoiceCopy (fun _ => none) true "2024-03-01T00:00:00Z"
        twoItemState sampleArchive).selectedSavedInvoiceId =
      sampleArchive.selectedSavedInvoiceId ∧
    (handleUpdateSavedInvoiceCopy (fun _ => none) true "2024-03-01T00:00:00Z"
        twoItemState sampleArchive).savedInvoices[0]? =
      (sampleArchive.savedInvoices[0]?).map (fun old =>
        if old.id = sampleArchive.selectedSavedInvoiceId then
          { old with
            invoiceNumber := twoItemState.meta.invoiceNumber
            savedAt := "2024-03-01T00:00:00Z"
            formState := twoItemState }
        else old) :=
  have h := handleUpdateSavedInvoiceCopy_spec (fun _ => none) true "2024-03-01T00:00:00Z"
    twoItemState sampleArchive (Or.inr rfl)
  ⟨(h.2 (by decide)).1, (h.2 (by decide)).2.2 0⟩

/-- Counterexample to C3: a non-parsing entry (`NaN`) into a line-item
quantity field does not retain the previous valid value 2 — the
`Number(value) || 0` fallback stores 0 instead. -/
theorem quantity_parse_failure_resets_to_zero :
    (handleQuantityInput "li-1" none sampleState).lineItems.map LineItem.quantity = [0] ∧
    sampleState.lineItems.map LineItem.quantity = [2] ∧
    handleQuantityInput "li-1" none sampleState ≠ sampleState := by
  refine ⟨by decide, by decide, ?_⟩
  intro h
  have := congrArg (fun s => s.lineItems.map LineItem.quantity) h
  simp only [handleQuantityInput, handleLineItemFieldChange, jsNumberOrZero] at this
  revert this
  decide

/-- C3 as amended: a non-parsing entry into the tax-rate field retains the
previous tax rate (and leaves the state unchanged), while a non-parsing
entry into a line-item quantity, unit-price or discount-rate field resets
that field of the matching item to 0; in every case the stored value is a
real number, never an invalid numeric state. -/
theorem numeric_parse_failure_behavior :
    ∀ (prev : InvoiceFormState) (id : String),
      (handleTaxRateChange none prev).taxRate = prev.taxRate ∧
      handleTaxRateChange none prev = prev ∧
      (handleQuantityInput id none prev).lineItems =
        prev.lineItems.map (fun item =>
          if item.id = id then { item with quantity := 0 } else item) ∧
      (handleUnitPriceInput id none prev).lineItems =
        prev.lineItems.map (fun item =>
          if item.id = id then { item with unitPrice := 0 } else item) ∧
      (handleDiscountRateInput id none prev).lineItems =
        prev.lineItems.map (fun item =>
          if item.id = id then { item with discountRate := 0 } else item) :=
  fun _ _ => ⟨rfl, rfl, rfl, rfl, rfl⟩

/-- Counterexample to C4: a unit-price entry that parses to −5 is stored as
−5 — the unit-price input is not clamped at zero at the point of entry. -/
theorem unitPrice_entry_not_clamped :
    (handleUnitPriceInput "li-1" (some (-5)) sampleState).lineItems.map LineItem.unitPrice =
      [-5] ∧
    ¬ (0 : ℚ) ≤ -5 := by
  constructor
  · decide
  · norm_num

/-- C4 as amended: a tax-rate entry is clamped non-negative at the point of
entry (`Math.max(value, 0)`), but a unit-price entry is stored exactly as
parsed — negative values included; only a non-parsing or zero entry falls
back to 0. -/
theorem entry_clamping_behavior :
    ∀ (prev : InvoiceFormState) (id : String) (v : ℚ),
      (handleTaxRateChange (some v) prev).taxRate = max v 0 ∧
      0 ≤ (handleTaxRateChange (some v) prev).taxRate ∧
      (handleUnitPriceInput id (some v) prev).lineItems =
        prev.lineItems.map (fun item =>
          if item.id = id then { item with unitPrice := v } else item) :=
  fun _ _ v => ⟨rfl, le_max_right v 0, rfl⟩

/-- C10: removing a line item from a single-item list is a no-op for every
id; on a list with two or more items exactly the items with the given id
are filtered out, the rest keeping their order; consequently, when the item
ids are distinct (the engine's own invariant for generated ids), removal
never empties a non-empty line-item list. -/
theorem handleRemoveLineItem_spec (id : String) (s : InvoiceFormState) :
    (s.lineItems.length = 1 → handleRemoveLineItem id s = s) ∧
    (1 < s.lineItems.length →
      (handleRemoveLineItem id s).lineItems =
        s.lineItems.filter (fun item => item.id != id)) ∧
    ((s.lineItems.map LineItem.id).Nodup → s.lineItems ≠ [] →
      (handleRemoveLineItem id s).lineItems ≠ []) := by
  refine ⟨?_, ?_, ?_⟩
  · intro h
    simp [handleRemoveLineItem, h]
  · intro h
    simp [handleRemoveLineItem, h]
  · intro hnodup hne
    match hl : s.lineItems, hnodup, hne with
    | [], _, hne => exact absurd rfl hne
    | [x], _, _ =>
      simp [handleRemoveLineItem, hl]
    | x :: y :: t, hnodup, _ =>
      simp only [handleRemoveLineItem, hl]
      rw [if_pos (show (x :: y :: t).length > 1 by simp)]
      by_cases hx : x.id = id
      · have hy : y.id ≠ id := by
          rw [List.map_cons, List.nodup_cons] at hnodup
          intro hcontra
          exact hnodup.1 (by simp [hx, hcontra])
        have hmem : y ∈ (x :: y :: t).filter (fun item => item.id != id) := by
          rw [List.mem_filter]
          exact ⟨by simp, by simp [hy]⟩
        exact List.ne_nil_of_mem hmem
      · have hmem : x ∈ (x :: y :: t).filter (fun item => item.id != id) := by
          rw [List.mem_filter]
          exact ⟨by simp, by simp [hx]⟩
        exact List.ne_nil_of_mem hmem

/-- Witness for C10: on a one-item list removal is a no-op, and on the
concrete two-item list removing `li-1` keeps `li-2`. -/
theorem handleRemoveLineItem_spec_witness :
    handleRemoveLineItem "li-1" sampleState = sampleState ∧
    (handleRemoveLineItem "li-1" twoItemState).lineItems =
      twoItemState.lineItems.filter (fun item => item.id != "li-1") ∧
    (handleRemoveLineItem "li-1" twoItemState).lineItems ≠ [] :=
  ⟨(handleRemoveLineItem_spec "li-1" sampleState).1 (by decide),
    (handleRemoveLineItem_spec "li-1" twoItemState).2.1 (by decide),
    (handleRemoveLineItem_spec "li-1" twoItemState).2.2 (by decide) (by decide)⟩

end Invoice
